import Mathlib

/-!
Shallow embedding of the iot-realtime-data-pipeline repository, covering the
validator (`DataValidator` in src/test_detector.py), the partitioned S3 writer
(`S3Uploader` in src/api_client.py) and the realtime cycle engine
(`run_realtime_pipeline` in src/s3_uploader.py), together with proofs of the
behavioural claims about them.

Python dynamic values are modelled by the inductive `Value`, records
(dicts) by association lists, exceptions by an explicit `PyExn` sum, and the
external collaborators (the ISO-8601 parser of the stdlib, the fetch client,
the anomaly detector, the alert sink and the object store) by function
parameters supplied per cycle.
-/

/-- A Python runtime value as far as the validator inspects one: `None`,
booleans, ints, floats (modelled as rationals) and strings.  Other object
kinds never appear in the records the pipeline builds. -/
inductive Value where
  | vNone : Value
  | vBool : Bool → Value
  | vInt : Int → Value
  | vStr : String → Value
  | vFloat : ℚ → Value
  deriving DecidableEq, Repr

/-- A sensor record: a Python dict with string keys, modelled as an
association list (dict keys are unique; lookup takes the first match). -/
abbrev Record := List (String × Value)

/-- Dict lookup: `record[field]` / `field in record` are expressed through
this first-match association-list lookup. -/
def lookupVal : Record → String → Option Value
  | [], _ => none
  | (k, v) :: rest, f => if k = f then some v else lookupVal rest f

/-- Python truthiness (`if record["timestamp"]:`): `None`, `False`, `0`,
`0.0` and `""` are falsy, everything else the validator can see is truthy. -/
def pyTruthy : Value → Bool
  | .vNone => false
  | .vBool b => b
  | .vInt n => n ≠ 0
  | .vStr s => s ≠ ""
  | .vFloat q => q ≠ 0

/-- Decimal rendering of a float modelled as a rational; faithful to Python
`str` on whole-valued floats (`21.0`), approximate elsewhere (no theorem in
this development evaluates `pyStr` on a non-whole float). -/
def floatStr (q : ℚ) : String :=
  if q.den = 1 then toString q.num ++ ".0" else toString q.num ++ "/" ++ toString q.den

/-- Python `str()` of a value, as used in `str(record["timestamp"])` and
`str(record["sensor_id"])`. -/
def pyStr : Value → String
  | .vNone => "None"
  | .vBool b => if b then "True" else "False"
  | .vInt n => toString n
  | .vStr s => s
  | .vFloat q => floatStr q

/-- Character-wise substitution: Python `str.replace(old, new)` with a
one-character pattern replaces every occurrence of that character. -/
def replaceChar (old : Char) (new : List Char) : List Char → List Char
  | [] => []
  | c :: cs => if c = old then new ++ replaceChar old new cs
               else c :: replaceChar old new cs

/-- Python `s.replace(old, new)` for a one-character `old`, as in
`.replace("Z", "+00:00")`. -/
def pyReplace1 (old : Char) (new : String) (s : String) : String :=
  String.mk (replaceChar old new.data s.data)

/-- Python `str.strip()`: drop leading and trailing whitespace. -/
def pyStrip (s : String) : String :=
  String.mk (((s.data.dropWhile Char.isWhitespace).reverse.dropWhile
    Char.isWhitespace).reverse)

/-- Python `type(x)` rendering, for the error message of the type check. -/
def pyClassStr : Value → String
  | .vNone => "<class 'NoneType'>"
  | .vBool _ => "<class 'bool'>"
  | .vInt _ => "<class 'int'>"
  | .vStr _ => "<class 'str'>"
  | .vFloat _ => "<class 'float'>"

/-- The declared kind of a schema field in `FIELD_TYPES`: `str`, or the
tuple `(int, float)` for numeric measurements. -/
inductive PyType where
  | str : PyType
  | num : PyType
  deriving DecidableEq, Repr

/-- Rendering of the expected type exactly as the f-string of
`_validate_record` interpolates it. -/
def pyTypeStr : PyType → String
  | .str => "<class 'str'>"
  | .num => "(<class 'int'>, <class 'float'>)"

/-- Python `isinstance(v, expected)`.  Note that `bool` is a subclass of
`int` in Python, so a boolean satisfies `isinstance(v, (int, float))`. -/
def pyIsinstance : Value → PyType → Bool
  | .vStr _, .str => true
  | .vInt _, .num => true
  | .vBool _, .num => true
  | .vFloat _, .num => true
  | _, _ => false

/-- `REQUIRED_FIELDS` of src/test_detector.py. -/
def REQUIRED_FIELDS : List String := ["sensor_id", "timestamp", "temperature"]

/-- `FIELD_TYPES` of src/test_detector.py, in dict-literal order. -/
def FIELD_TYPES : List (String × PyType) :=
  [("sensor_id", .str), ("timestamp", .str), ("temperature", .num),
   ("humidity", .num), ("pressure", .num), ("vibration", .num), ("voltage", .num)]

namespace DataValidator

/-- `field not in record or record[field] is None` — a required field is
missing when absent or bound to `None`. -/
def missingField (r : Record) (f : String) : Bool :=
  match lookupVal r f with
  | none => true
  | some .vNone => true
  | some _ => false

/-- The required-field pass of `_validate_record`: one error string per
missing required field, in `REQUIRED_FIELDS` order. -/
def requiredErrors (r : Record) : List String :=
  REQUIRED_FIELDS.filterMap fun f =>
    if missingField r f then some ("Missing required field: '" ++ f ++ "'") else none

/-- One step of the type-check pass: for a schema entry `(field, expected)`,
report an error when the field is present, non-`None` and fails
`isinstance`. -/
def typeCheckOne (r : Record) (ft : String × PyType) : Option String :=
  match lookupVal r ft.1 with
  | none => none
  | some v =>
      if v = .vNone then none
      else if pyIsinstance v ft.2 then none
      else some ("Invalid type for '" ++ ft.1 ++ "': expected " ++ pyTypeStr ft.2
                 ++ ", got " ++ pyClassStr v)

/-- The type-check pass of `_validate_record` over all of `FIELD_TYPES`. -/
def typeErrors (r : Record) : List String :=
  FIELD_TYPES.filterMap (typeCheckOne r)

/-- The timestamp pass of `_validate_record`.  The guard is Python
truthiness (`if "timestamp" in record and record["timestamp"]:`); the value
is rendered with `str`, every `"Z"` is replaced by `"+00:00"`, and the
external parser (stdlib `datetime.fromisoformat`, supplied as the `parse`
parameter; `False` result standing for a raised `ValueError`) decides
parseability. -/
def timestampErrors (parse : String → Bool) (r : Record) : List String :=
  match lookupVal r "timestamp" with
  | none => []
  | some v =>
      if pyTruthy v then
        if parse (pyReplace1 'Z' "+00:00" (pyStr v)) then []
        else ["Invalid timestamp format: '" ++ pyStr v ++ "'"]
      else []

/-- The sensor_id pass of `_validate_record`: a present, non-`None`
sensor_id must not be blank after stripping. -/
def sensorIdErrors (r : Record) : List String :=
  match lookupVal r "sensor_id" with
  | none => []
  | some v =>
      if v = .vNone then []
      else if pyStrip (pyStr v) = "" then ["sensor_id cannot be empty"] else []

/-- `DataValidator._validate_record`: all four passes run unconditionally and
their errors are concatenated; the record is valid iff no error accumulated. -/
def validate_record (parse : String → Bool) (r : Record) : Bool × List String :=
  let errors := requiredErrors r ++ typeErrors r ++ timestampErrors parse r
                ++ sensorIdErrors r
  (errors.isEmpty, errors)

/-- `DataValidator.validate`: classify each record in input order; valid
records are kept as-is, invalid ones are wrapped with their error list
(the `{"record": ..., "errors": ...}` dict). -/
def validate (parse : String → Bool) : List Record → List Record × List (Record × List String)
  | [] => ([], [])
  | r :: rs =>
      let res := validate_record parse r
      let rest := validate parse rs
      if res.1 then (r :: rest.1, rest.2) else (rest.1, (r, res.2) :: rest.2)

end DataValidator

/-! ## Timestamps and the partitioned storage key -/

/-- A UTC wall-clock instant as `datetime.utcnow()` produces one. -/
structure PyDateTime where
  year : Nat
  month : Nat
  day : Nat
  hour : Nat
  minute : Nat
  second : Nat
  microsecond : Nat
  deriving DecidableEq, Repr

/-- The character of one decimal digit. -/
def digitCh (d : Nat) : Char := Char.ofNat (48 + d)

/-- Decimal digits of `n`, most significant first, with explicit fuel so the
definition is structural (any `fuel > n` is enough fuel). -/
def digitsAux : Nat → Nat → List Char
  | 0, _ => []
  | fuel + 1, n =>
      if n < 10 then [digitCh n]
      else digitsAux fuel (n / 10) ++ [digitCh (n % 10)]

/-- The decimal rendering of a natural number, as Python renders integers
and strftime renders calendar fields. -/
def natStr (n : Nat) : String := String.mk (digitsAux (n + 1) n)

/-- Two-digit zero padding, as the strftime codes `%m`, `%d`, `%H`, `%M`,
`%S` render calendar fields. -/
def strf2 (n : Nat) : String :=
  (if n < 10 then "0" else "") ++ natStr n

/-- The strftime code `%Y`: the decimal year (no forced padding; calendar
years of the running pipeline have four digits). -/
def strfY (n : Nat) : String := natStr n

/-- Zero padding to a requested width, the generic notion the spec's
"zero-padded" wording and Python's `isoformat` (`%04d`-style fields) use. -/
def zeroPad (w : Nat) (n : Nat) : String :=
  String.mk (List.replicate (w - (natStr n).length) '0') ++ natStr n

/-- `datetime.isoformat()`: `YYYY-MM-DDTHH:MM:SS[.ffffff]`, the fractional
part present exactly when the microsecond field is nonzero. -/
def isoformat (t : PyDateTime) : String :=
  zeroPad 4 t.year ++ "-" ++ zeroPad 2 t.month ++ "-" ++ zeroPad 2 t.day ++ "T"
    ++ zeroPad 2 t.hour ++ ":" ++ zeroPad 2 t.minute ++ ":" ++ zeroPad 2 t.second
    ++ (if t.microsecond = 0 then "" else "." ++ zeroPad 6 t.microsecond)

/-! ## Exceptions, the store interface and the uploader -/

/-- A raised Python exception as far as the engine's handlers distinguish
them: `KeyboardInterrupt` (not an `Exception` subclass, caught by its own
handler) versus an ordinary `Exception` carrying its `str()` message. -/
inductive PyExn where
  | kbInterrupt : PyExn
  | exn : String → PyExn
  deriving DecidableEq, Repr

/-- The JSON document `S3Uploader.upload` serializes as the object body
(`json.dumps(payload, indent=2, default=str)`), kept structured here; the
claims inspect its fields, never the rendered text. -/
structure UploadPayload where
  pipeline_version : String
  upload_timestamp : String
  record_count : Nat
  records : List Record
  deriving DecidableEq, Repr

/-- One `put_object` invocation against the store: bucket, key, body,
content type and the side-channel metadata mapping. -/
structure PutCall where
  bucket : String
  key : String
  body : UploadPayload
  contentType : String
  metadata : List (String × String)
  deriving DecidableEq, Repr

/-- The dict `S3Uploader.upload` returns: the skipped form
(`{"status": "skipped", "reason": ...}`) or the success form. -/
inductive UploadResult where
  | skipped : String → UploadResult
  | success : String → String → Nat → String → UploadResult
  deriving DecidableEq, Repr

/-- The subscript `upload_result["s3_key"]` (line 83 of
src/s3_uploader.py): present on a success dict, a raised
`KeyError("s3_key")` — whose `str()` is `"'s3_key'"` — on a skipped one. -/
def UploadResult.getS3Key : UploadResult → Except PyExn String
  | .skipped _ => .error (.exn "'s3_key'")
  | .success k _ _ _ => .ok k

/-- `S3Uploader` configuration: bucket and region, from the environment with
the defaults of `__init__`. -/
structure S3Uploader where
  bucket_name : String
  aws_region : String
  deriving DecidableEq, Repr

/-- The `__init__` defaults (`S3_BUCKET_NAME`/`AWS_REGION` unset). -/
def S3Uploader.default : S3Uploader :=
  ⟨"iot-pipeline-data", "ap-south-1"⟩

/-- The date-partitioned key built at lines 41–47 of src/api_client.py from
the strftime fields of `datetime.utcnow()`. -/
def S3Uploader.s3_key (now : PyDateTime) : String :=
  "clean-data/" ++ "year=" ++ strfY now.year ++ "/" ++ "month=" ++ strf2 now.month
    ++ "/" ++ "day=" ++ strf2 now.day ++ "/" ++ strf2 now.hour ++ "-"
    ++ strf2 now.minute ++ "-" ++ strf2 now.second ++ "-readings.json"

/-- The spec's key-derivation sentence (§4.3), written from its words:
`prefix/year=YYYY/month=MM/day=DD/HH-MM-SS-suffix.json`, calendar fields
zero-padded, with prefix `clean-data` and suffix `readings`. -/
def specStorageKey (now : PyDateTime) : String :=
  "clean-data/year=" ++ zeroPad 4 now.year ++ "/month=" ++ zeroPad 2 now.month
    ++ "/day=" ++ zeroPad 2 now.day ++ "/" ++ zeroPad 2 now.hour ++ "-"
    ++ zeroPad 2 now.minute ++ "-" ++ zeroPad 2 now.second ++ "-readings.json"

/-- `S3Uploader.upload`.  The store (`put_object`) is the `put` parameter;
the list returned alongside the result records every `put_object`
invocation made.  An empty batch short-circuits to the skipped dict without
touching the store; otherwise one put is attempted and a `ClientError` /
`BotoCoreError` from it is re-raised after logging. -/
def S3Uploader.upload (self : S3Uploader) (put : PutCall → Except PyExn Unit)
    (now : PyDateTime) (data : List Record) :
    List PutCall × Except PyExn UploadResult :=
  if data.isEmpty then
    ([], .ok (.skipped "empty data"))
  else
    let key := S3Uploader.s3_key now
    let payload : UploadPayload :=
      ⟨"1.0", isoformat now, data.length, data⟩
    let call : PutCall :=
      ⟨self.bucket_name, key, payload, "application/json",
        [("record-count", toString data.length),
         ("upload-timestamp", isoformat now),
         ("pipeline", "iot-realtime-data-pipeline")]⟩
    match put call with
    | .ok _ =>
        ([call], .ok (.success key ("s3://" ++ self.bucket_name ++ "/" ++ key)
                        data.length (isoformat now)))
    | .error e => ([call], .error e)

/-! ## The realtime cycle engine (src/s3_uploader.py lines 49–103) -/

/-- A monitor invocation, in the order the engine makes them. -/
inductive MonEvent where
  | cycleStart : MonEvent
  | validationFailures : Nat → MonEvent
  | anomalies : Nat → MonEvent
  | cycleSuccess : Nat → Nat → Nat → MonEvent
  | cycleFailure : String → MonEvent
  deriving DecidableEq, Repr

/-- An anomaly verdict handed to the alert sink; the engine treats it as
opaque data. -/
abbrev AnomalyVerdict := Record

/-- The collaborators and ambient inputs of one cycle: the fetch client,
the stdlib timestamp parser used by the validator, the anomaly detector,
the alert sink, the object store, the wall clock at upload time and the
uploader configuration.  Each fallible collaborator returns `Except PyExn`. -/
structure CycleEnv where
  fetch : Except PyExn (List Record)
  parse : String → Bool
  detect : List Record → Except PyExn (List Record × List AnomalyVerdict)
  alert : List AnomalyVerdict → Except PyExn Unit
  put : PutCall → Except PyExn Unit
  now : PyDateTime
  uploader : S3Uploader

/-- The observable effects a cycle accumulated before finishing or before
an exception escaped: monitor events (after `record_cycle_start`), store
puts, and the upload result when the upload returned. -/
structure CycleEff where
  events : List MonEvent
  puts : List PutCall
  uploadRes : Option UploadResult
  deriving DecidableEq, Repr

/-- The body of the `try:` block of one cycle, lines 53–94: fetch, validate,
detect, alert, upload, then the `upload_result["s3_key"]` subscript and
`record_cycle_success`.  Returns the effects produced together with the
exception that escaped the body, if any. -/
def cycleBody (env : CycleEnv) : CycleEff × Option PyExn :=
  match env.fetch with
  | .error e => (⟨[], [], none⟩, some e)
  | .ok raw =>
    let vres := DataValidator.validate env.parse raw
    let ev1 : List MonEvent :=
      if vres.2.isEmpty then [] else [.validationFailures vres.2.length]
    match env.detect vres.1 with
    | .error e => (⟨ev1, [], none⟩, some e)
    | .ok (clean, anomalies) =>
      let alertRes : Except PyExn (List MonEvent) :=
        if anomalies.isEmpty then .ok []
        else
          match env.alert anomalies with
          | .error e => .error e
          | .ok _ => .ok [.anomalies anomalies.length]
      match alertRes with
      | .error e => (⟨ev1, [], none⟩, some e)
      | .ok ev2 =>
        let up := env.uploader.upload env.put env.now clean
        match up.2 with
        | .error e => (⟨ev1 ++ ev2, up.1, none⟩, some e)
        | .ok ur =>
          match ur.getS3Key with
          | .error e => (⟨ev1 ++ ev2, up.1, some ur⟩, some e)
          | .ok _ =>
            (⟨ev1 ++ ev2 ++ [.cycleSuccess raw.length clean.length anomalies.length],
              up.1, some ur⟩, none)

/-- Whether the loop continues to the next cycle or breaks. -/
inductive LoopCtl where
  | cont : LoopCtl
  | stop : LoopCtl
  deriving DecidableEq, Repr

/-- One full loop iteration: the effects, the control decision and whether
the pacing sleep ran. -/
structure CycleResult where
  events : List MonEvent
  puts : List PutCall
  uploadRes : Option UploadResult
  ctl : LoopCtl
  slept : Bool
  deriving DecidableEq, Repr

/-- One iteration of the `while True:` loop: `record_cycle_start`, the try
body, then the handlers — `except KeyboardInterrupt: break` (no sleep),
`except Exception: record_cycle_failure(str(e))` — and the pacing
`time.sleep` on every non-break path. -/
def runCycle (env : CycleEnv) : CycleResult :=
  let b := cycleBody env
  match b.2 with
  | none =>
      ⟨.cycleStart :: b.1.events, b.1.puts, b.1.uploadRes, .cont, true⟩
  | some .kbInterrupt =>
      ⟨.cycleStart :: b.1.events, b.1.puts, b.1.uploadRes, .stop, false⟩
  | some (.exn m) =>
      ⟨.cycleStart :: (b.1.events ++ [.cycleFailure m]), b.1.puts, b.1.uploadRes,
        .cont, true⟩

/-- The loop over a stream of cycle environments (one entry per would-be
iteration): it consumes the whole stream unless some iteration breaks. -/
def runLoop : List CycleEnv → List CycleResult
  | [] => []
  | env :: rest =>
    let r := runCycle env
    if r.ctl = .stop then [r] else r :: runLoop rest

/-! ## A model of the external ISO-8601 parser and concrete fixtures -/

/-- Numeric value of a two-digit character pair. -/
def d2val (a b : Char) : Nat := 10 * (a.toNat - 48) + (b.toNat - 48)

/-- Gregorian leap years. -/
def isLeapYear (y : Nat) : Bool := (y % 4 = 0 && y % 100 ≠ 0) || y % 400 = 0

/-- Days in a calendar month. -/
def daysInMonth (y m : Nat) : Nat :=
  if m = 2 then (if isLeapYear y then 29 else 28)
  else if m = 4 || m = 6 || m = 9 || m = 11 then 30 else 31

/-- A valid `±HH:MM` UTC-offset suffix. -/
def offsetOk (sg o1 o2 o3 o4 : Char) : Bool :=
  (sg = '+' || sg = '-') && o1.isDigit && o2.isDigit && o3.isDigit && o4.isDigit
    && d2val o1 o2 ≤ 23 && d2val o3 o4 ≤ 59

/-- A valid `HH:MM` pair. -/
def hmOk (h1 h2 m1 m2 : Char) : Bool :=
  h1.isDigit && h2.isDigit && m1.isDigit && m2.isDigit
    && d2val h1 h2 ≤ 23 && d2val m1 m2 ≤ 59

/-- The time-of-day part of an ISO instant: `HH:MM[:SS]`, optionally
followed by a `±HH:MM` offset. -/
def isoTimeOk : List Char → Bool
  | [h1, h2, ':', m1, m2] => hmOk h1 h2 m1 m2
  | [h1, h2, ':', m1, m2, ':', s1, s2] =>
      hmOk h1 h2 m1 m2 && s1.isDigit && s2.isDigit && d2val s1 s2 ≤ 59
  | [h1, h2, ':', m1, m2, sg, o1, o2, ':', o3, o4] =>
      hmOk h1 h2 m1 m2 && offsetOk sg o1 o2 o3 o4
  | [h1, h2, ':', m1, m2, ':', s1, s2, sg, o1, o2, ':', o3, o4] =>
      hmOk h1 h2 m1 m2 && s1.isDigit && s2.isDigit && d2val s1 s2 ≤ 59
        && offsetOk sg o1 o2 o3 o4
  | _ => false

/-- Model of the external stdlib collaborator `datetime.fromisoformat`
(`True` = parses, `False` = raises `ValueError`): a calendar-valid
`YYYY-MM-DD`, optionally followed by a one-character separator and a valid
time of day (fractional seconds omitted — no theorem depends on them).  In
particular it rejects the empty string, as the stdlib does. -/
def isoParseOk (s : String) : Bool :=
  match s.data with
  | y1 :: y2 :: y3 :: y4 :: '-' :: m1 :: m2 :: '-' :: d1 :: d2 :: rest =>
      y1.isDigit && y2.isDigit && y3.isDigit && y4.isDigit && m1.isDigit && m2.isDigit
        && d1.isDigit && d2.isDigit
        && (let y := 1000 * (y1.toNat - 48) + 100 * (y2.toNat - 48)
                    + 10 * (y3.toNat - 48) + (y4.toNat - 48)
            let mo := d2val m1 m2
            let dy := d2val d1 d2
            1 ≤ mo && mo ≤ 12 && 1 ≤ dy && dy ≤ daysInMonth y mo)
        && (match rest with
            | [] => true
            | _ :: t => isoTimeOk t)
  | _ => false

/-- A record lacking `sensor_id` (second record of the spec's §8 scenario). -/
def recNoSensor : Record :=
  [("timestamp", .vStr "2024-01-01T00:00:01Z"), ("temperature", .vInt 22)]

/-- A record whose `timestamp` is present but the empty string. -/
def recEmptyTs : Record :=
  [("sensor_id", .vStr "s1"), ("timestamp", .vStr ""), ("temperature", .vInt 20)]

/-- A record whose `timestamp` is present, truthy and unparseable. -/
def recBadTs : Record :=
  [("sensor_id", .vStr "s1"), ("timestamp", .vStr "not-a-date"), ("temperature", .vInt 20)]

/-- A well-formed record whose `temperature` is the boolean `True`. -/
def recBoolTemp : Record :=
  [("sensor_id", .vStr "s1"), ("timestamp", .vStr "2024-01-01T00:00:00Z"),
   ("temperature", .vBool true)]

/-- A cycle whose fetch yields no readings, all collaborators healthy. -/
def envEmpty : CycleEnv :=
  ⟨.ok [], isoParseOk, fun v => .ok (v, []), fun _ => .ok (), fun _ => .ok (),
    ⟨2024, 3, 7, 9, 5, 33, 0⟩, S3Uploader.default⟩

/-- A cycle whose fetch raises an ordinary exception. -/
def envFetchBoom : CycleEnv :=
  ⟨.error (.exn "boom"), isoParseOk, fun v => .ok (v, []), fun _ => .ok (),
    fun _ => .ok (), ⟨2024, 3, 7, 9, 5, 33, 0⟩, S3Uploader.default⟩

/-- A cycle with one valid reading that the detector also flags anomalous,
whose alert sink raises; the store itself is healthy. -/
def envAlertDown : CycleEnv :=
  ⟨.ok [recBoolTemp], isoParseOk, fun v => .ok (v, v),
    fun _ => .error (.exn "alert down"), fun _ => .ok (),
    ⟨2024, 3, 7, 9, 5, 33, 0⟩, S3Uploader.default⟩

/-! ## Helper lemmas: decimal rendering and padding -/

/-- With enough fuel, `digitsAux` produces exactly one character per decimal
digit. -/
theorem digitsAux_len (fuel : Nat) : ∀ n e : Nat, n < fuel → 10 ^ e ≤ n → n < 10 ^ (e + 1) →
    (digitsAux fuel n).length = e + 1 := by
  induction fuel with
  | zero => intro n e h _ _; omega
  | succ fuel ih =>
    intro n e hfuel hlow hhigh
    by_cases h10 : n < 10
    · have he : e = 0 := by
        by_contra hne
        have h1 : (1 : Nat) ≤ e := by omega
        have : (10 : Nat) ^ 1 ≤ 10 ^ e := Nat.pow_le_pow_right (by norm_num) h1
        simp at this
        omega
      subst he
      simp [digitsAux, h10]
    · match e with
      | 0 =>
        exfalso
        have : n < 10 := by simpa using hhigh
        omega
      | e + 1 =>
        have hdl : n / 10 < fuel := by
          have : n / 10 < n := Nat.div_lt_self (by omega) (by omega)
          omega
        have hlow2 : 10 ^ e ≤ n / 10 := by
          rw [Nat.le_div_iff_mul_le (by norm_num)]
          calc 10 ^ e * 10 = 10 ^ (e + 1) := by rw [pow_succ]
          _ ≤ n := hlow
        have hhigh2 : n / 10 < 10 ^ (e + 1) := by
          rw [Nat.div_lt_iff_lt_mul (by norm_num)]
          calc n < 10 ^ (e + 1 + 1) := hhigh
          _ = 10 ^ (e + 1) * 10 := by rw [pow_succ]
        simp [digitsAux, h10, ih (n / 10) e hdl hlow2 hhigh2]

/-- `natStr n` has one character per decimal digit of `n`. -/
theorem natStr_len (n e : Nat) (hlow : 10 ^ e ≤ n) (hhigh : n < 10 ^ (e + 1)) :
    (natStr n).length = e + 1 := by
  simpa [natStr, String.length] using digitsAux_len (n + 1) n e (Nat.lt_succ_self n) hlow hhigh

/-- The empty string is a left identity of string append. -/
theorem stringMk_nil_append (s : String) : String.mk [] ++ s = s := by
  cases s
  rfl

/-- Numbers below ten render as a single character. -/
theorem natStr_len_one (n : Nat) (h : n < 10) : (natStr n).length = 1 := by
  rcases Nat.eq_zero_or_pos n with h0 | hp
  · subst h0; rfl
  · exact natStr_len n 0 (by simpa using hp) (by simpa using h)

/-- Padding to the exact width of the rendering changes nothing. -/
theorem zeroPad_of_len (w n : Nat) (h : (natStr n).length = w) : zeroPad w n = natStr n := by
  simp only [zeroPad, h, Nat.sub_self, List.replicate]
  exact stringMk_nil_append _

/-- Below one hundred, the strftime two-digit rendering is zero padding to
width two. -/
theorem strf2_eq_zeroPad (n : Nat) (h : n ≤ 99) : strf2 n = zeroPad 2 n := by
  by_cases h10 : n < 10
  · have hl := natStr_len_one n h10
    simp only [strf2, if_pos h10, zeroPad, hl]
    rfl
  · have hl : (natStr n).length = 2 := by
      have := natStr_len n 1 (by simpa using Nat.not_lt.mp h10) (by norm_num; omega)
      simpa using this
    rw [strf2, if_neg h10, zeroPad_of_len 2 n hl]
    exact stringMk_nil_append _

/-- On four-digit years, the `%Y` rendering is zero padding to width four. -/
theorem strfY_eq_zeroPad (y : Nat) (h1 : 1000 ≤ y) (h2 : y ≤ 9999) : strfY y = zeroPad 4 y := by
  have hl : (natStr y).length = 4 := by
    have := natStr_len y 3 (by norm_num; omega) (by norm_num; omega)
    simpa using this
  rw [strfY, zeroPad_of_len 4 y hl]

/-- On in-range calendar fields, the key the uploader builds from strftime
fields coincides with the spec's zero-padded derivation, literal for
literal. -/
theorem key_eq_specStorageKey (now : PyDateTime) (hy1 : 1000 ≤ now.year)
    (hy2 : now.year ≤ 9999) (hm : now.month ≤ 99) (hd : now.day ≤ 99)
    (hh : now.hour ≤ 99) (hmin : now.minute ≤ 99) (hs : now.second ≤ 99) :
    S3Uploader.s3_key now = specStorageKey now := by
  simp only [S3Uploader.s3_key, specStorageKey, strfY_eq_zeroPad now.year hy1 hy2,
    strf2_eq_zeroPad _ hm, strf2_eq_zeroPad _ hd, strf2_eq_zeroPad _ hh,
    strf2_eq_zeroPad _ hmin, strf2_eq_zeroPad _ hs]
  simp [String.append_assoc]

/-! ## Helper lemmas: the validator -/

namespace DataValidator

/-- The valid output is the order-preserving filter of the input by the
per-record verdict. -/
theorem validate_fst (parse : String → Bool) (rs : List Record) :
    (validate parse rs).1 = rs.filter fun r => (validate_record parse r).1 := by
  induction rs with
  | nil => rfl
  | cons r rs ih =>
    simp only [validate, List.filter_cons]
    cases h : (validate_record parse r).1 <;> simp [h, ih]

/-- The records wrapped in the invalid output are the order-preserving
filter of the input by the negated verdict. -/
theorem validate_snd_map (parse : String → Bool) (rs : List Record) :
    (validate parse rs).2.map Prod.fst = rs.filter fun r => !(validate_record parse r).1 := by
  induction rs with
  | nil => rfl
  | cons r rs ih =>
    simp only [validate, List.filter_cons]
    cases h : (validate_record parse r).1 <;> simp [h, ih]

/-- Valid records and wrapped invalid records together are a permutation of
the input: nothing is duplicated or dropped. -/
theorem validate_perm (parse : String → Bool) (rs : List Record) :
    ((validate parse rs).1 ++ (validate parse rs).2.map Prod.fst).Perm rs := by
  induction rs with
  | nil => simp [validate]
  | cons r rs ih =>
    simp only [validate]
    cases h : (validate_record parse r).1
    · simp only [h, Bool.false_eq_true, if_false, List.map_cons]
      exact List.perm_middle.trans (ih.cons r)
    · simp only [h, if_true, List.cons_append]
      exact ih.cons r

/-- Membership in the valid output characterised. -/
theorem mem_valid_iff (parse : String → Bool) (rs : List Record) (r : Record) :
    r ∈ (validate parse rs).1 ↔ r ∈ rs ∧ (validate_record parse r).1 = true := by
  rw [validate_fst]
  simp [List.mem_filter]

/-- A missing required field contributes its error message. -/
theorem requiredErrors_mem (r : Record) (f : String) (hf : f ∈ REQUIRED_FIELDS)
    (hm : missingField r f = true) :
    ("Missing required field: '" ++ f ++ "'") ∈ requiredErrors r := by
  simp only [requiredErrors, List.mem_filterMap]
  exact ⟨f, hf, by simp [hm]⟩

/-- The error list of a verdict is the concatenation of the four passes. -/
theorem validate_record_snd (parse : String → Bool) (r : Record) :
    (validate_record parse r).2
      = requiredErrors r ++ typeErrors r ++ timestampErrors parse r ++ sensorIdErrors r := rfl

/-- Any accumulated error makes the verdict invalid. -/
theorem validate_record_fst_false (parse : String → Bool) (r : Record) (e : String)
    (he : e ∈ (validate_record parse r).2) : (validate_record parse r).1 = false := by
  have hne : (validate_record parse r).2 ≠ [] := List.ne_nil_of_mem he
  have : (validate_record parse r).1 = (validate_record parse r).2.isEmpty := rfl
  rw [this]
  simpa [List.isEmpty_iff] using hne

/-- Every invalid entry carries a non-empty error list. -/
theorem validate_invalid_errors (parse : String → Bool) (rs : List Record) :
    ∀ e ∈ (validate parse rs).2, e.2 ≠ [] := by
  induction rs with
  | nil => simp [validate]
  | cons r rs ih =>
    simp only [validate]
    cases h : (validate_record parse r).1
    · simp only [h, Bool.false_eq_true, if_false]
      intro e he
      rcases List.mem_cons.mp he with rfl | hmem
      · have : (validate_record parse r).1 = (validate_record parse r).2.isEmpty := rfl
        rw [h] at this
        simp only [ne_eq]
        intro hnil
        rw [hnil] at this
        simp at this
      · exact ih e hmem
    · simp only [h, if_true]
      exact ih

end DataValidator

/-! ## Helper lemmas: the cycle engine and the uploader -/

/-- An ordinary exception escaping the try body lands in the generic
handler: the failure is recorded after the effects so far, the loop
continues, and the pacing sleep runs. -/
theorem runCycle_exn (env : CycleEnv) (m : String)
    (h : (cycleBody env).2 = some (.exn m)) :
    runCycle env
      = ⟨.cycleStart :: ((cycleBody env).1.events ++ [.cycleFailure m]),
          (cycleBody env).1.puts, (cycleBody env).1.uploadRes, .cont, true⟩ := by
  simp only [runCycle, h]

/-- The loop breaks exactly when the body raised `KeyboardInterrupt`. -/
theorem runCycle_stop_iff (env : CycleEnv) :
    (runCycle env).ctl = .stop ↔ (cycleBody env).2 = some .kbInterrupt := by
  rcases hb : (cycleBody env).2 with _ | e
  · simp [runCycle, hb]
  · cases e
    · simp [runCycle, hb]
    · simp [runCycle, hb]

/-- Without an operator interrupt, the loop consumes every scheduled
cycle: no cycle's failure terminates it. -/
theorem runLoop_length (envs : List CycleEnv)
    (h : ∀ env ∈ envs, (cycleBody env).2 ≠ some .kbInterrupt) :
    (runLoop envs).length = envs.length := by
  induction envs with
  | nil => rfl
  | cons env rest ih =>
    have hctl : ¬ (runCycle env).ctl = .stop := by
      intro hstop
      exact h env (List.mem_cons_self env rest) ((runCycle_stop_iff env).mp hstop)
    simp only [runLoop, if_neg hctl, List.length_cons]
    rw [ih fun e he => h e (List.mem_cons_of_mem env he)]

/-- A non-empty upload makes exactly one `put_object` call, whose key,
side-channel metadata and body are determined by the batch and the clock. -/
theorem upload_put_call (self : S3Uploader) (put : PutCall → Except PyExn Unit)
    (now : PyDateTime) (data : List Record) (h : data ≠ []) :
    ∃ call : PutCall, (S3Uploader.upload self put now data).1 = [call]
      ∧ call.key = S3Uploader.s3_key now
      ∧ call.metadata
          = [("record-count", toString data.length),
             ("upload-timestamp", isoformat now),
             ("pipeline", "iot-realtime-data-pipeline")]
      ∧ call.body = ⟨"1.0", isoformat now, data.length, data⟩
      ∧ call.bucket = self.bucket_name
      ∧ call.contentType = "application/json" := by
  have hie : data.isEmpty = false := by
    cases data with
    | nil => exact absurd rfl h
    | cons a l => rfl
  simp only [S3Uploader.upload, hie, Bool.false_eq_true, if_false]
  cases hput : put ⟨self.bucket_name, S3Uploader.s3_key now,
      ⟨"1.0", isoformat now, data.length, data⟩, "application/json",
      [("record-count", toString data.length), ("upload-timestamp", isoformat now),
       ("pipeline", "iot-realtime-data-pipeline")]⟩ with
  | error e => exact ⟨_, rfl, rfl, rfl, rfl, rfl, rfl⟩
  | ok u => exact ⟨_, rfl, rfl, rfl, rfl, rfl, rfl⟩

/-- Appending a last element after a head is seen by `getLast?`. -/
theorem getLast_cons_concat (x a : MonEvent) (l : List MonEvent) :
    (x :: (l ++ [a])).getLast? = some a := by
  rw [← List.cons_append, List.getLast?_concat]

/-- A timestamp the parser accepts contributes no error. -/
theorem timestampErrors_of_parse_true (parse : String → Bool) (r : Record) (v : Value)
    (hl : lookupVal r "timestamp" = some v)
    (hp : parse (pyReplace1 'Z' "+00:00" (pyStr v)) = true) :
    DataValidator.timestampErrors parse r = [] := by
  simp [DataValidator.timestampErrors, hl, hp]

/-! ## Claims -/

/-- C1: for an empty batch the write is invoked and returns the "skipped"
result without any `put_object` call — but the engine then subscripts the
skipped dict with `"s3_key"` (line 83 of src/s3_uploader.py), so the cycle
is recorded as a failure (`record_cycle_failure("'s3_key'")`), not the
success the claim and the spec state.  This theorem evaluates the code at
the failing input: a cycle fetching zero readings with every collaborator
healthy. -/
theorem C1_empty_batch_skipped_but_cycle_fails :
    (∀ (self : S3Uploader) (put : PutCall → Except PyExn Unit) (now : PyDateTime),
        S3Uploader.upload self put now [] = ([], .ok (.skipped "empty data")))
    ∧ runCycle envEmpty
        = ⟨[.cycleStart, .cycleFailure "'s3_key'"], [], some (.skipped "empty data"),
            .cont, true⟩ :=
  ⟨fun self put now => rfl, by decide⟩

/-- C2: `validate` is an order-preserving partition of its input — the
valid output is the filter of the input by the per-record verdict, the
records wrapped in the invalid output are the filter by the negated
verdict, and together they are a permutation of the input (no record
duplicated or dropped). -/
theorem C2_validate_order_preserving_partition (parse : String → Bool)
    (records : List Record) :
    (DataValidator.validate parse records).1
        = records.filter (fun r => (DataValidator.validate_record parse r).1)
    ∧ (DataValidator.validate parse records).2.map Prod.fst
        = records.filter (fun r => !(DataValidator.validate_record parse r).1)
    ∧ ((DataValidator.validate parse records).1
        ++ (DataValidator.validate parse records).2.map Prod.fst).Perm records :=
  ⟨DataValidator.validate_fst parse records, DataValidator.validate_snd_map parse records,
    DataValidator.validate_perm parse records⟩

/-- C3: a record missing (absent or null) any required field is classified
invalid, its error list contains `"Missing required field: '<name>'"` for
that field, and the record never appears in the valid output of any
validation run. -/
theorem C3_missing_required_field_invalid (parse : String → Bool) (r : Record)
    (f : String) (hf : f ∈ REQUIRED_FIELDS)
    (hm : DataValidator.missingField r f = true) :
    ("Missing required field: '" ++ f ++ "'") ∈ (DataValidator.validate_record parse r).2
    ∧ (DataValidator.validate_record parse r).1 = false
    ∧ ∀ rs : List Record, r ∉ (DataValidator.validate parse rs).1 := by
  have hmem : ("Missing required field: '" ++ f ++ "'")
      ∈ (DataValidator.validate_record parse r).2 := by
    rw [DataValidator.validate_record_snd]
    exact List.mem_append_left _ (List.mem_append_left _
      (List.mem_append_left _ (DataValidator.requiredErrors_mem r f hf hm)))
  have hfalse := DataValidator.validate_record_fst_false parse r _ hmem
  refine ⟨hmem, hfalse, fun rs hr => ?_⟩
  have hmv := (DataValidator.mem_valid_iff parse rs r).mp hr
  rw [hfalse] at hmv
  exact absurd hmv.2 (by simp)

/-- C3 witness: the record of the spec's §8 scenario that lacks
`sensor_id`. -/
theorem C3_missing_required_field_invalid_witness :
    ("sensor_id" ∈ REQUIRED_FIELDS
     ∧ DataValidator.missingField recNoSensor "sensor_id" = true)
    ∧ ("Missing required field: 'sensor_id'"
          ∈ (DataValidator.validate_record isoParseOk recNoSensor).2
       ∧ (DataValidator.validate_record isoParseOk recNoSensor).1 = false
       ∧ ∀ rs : List Record, recNoSensor ∉ (DataValidator.validate isoParseOk rs).1) :=
  ⟨⟨by decide, by decide⟩,
    C3_missing_required_field_invalid isoParseOk recNoSensor "sensor_id"
      (by decide) (by decide)⟩

/-- C4: the derived storage key is
`clean-data/year=YYYY/month=MM/day=DD/HH-MM-SS-readings.json` with
zero-padded calendar fields (the spec-worded derivation), the batch
generated at 2024-03-07T09:05:33 UTC gets exactly the claimed key, and
every non-empty upload's single `put_object` call uses this key. -/
theorem C4_partitioned_storage_key (now : PyDateTime) (hy1 : 1000 ≤ now.year)
    (hy2 : now.year ≤ 9999) (hm : now.month ≤ 99) (hd : now.day ≤ 99)
    (hh : now.hour ≤ 99) (hmin : now.minute ≤ 99) (hs : now.second ≤ 99) :
    S3Uploader.s3_key now = specStorageKey now
    ∧ S3Uploader.s3_key ⟨2024, 3, 7, 9, 5, 33, 0⟩
        = "clean-data/year=2024/month=03/day=07/09-05-33-readings.json"
    ∧ ∀ (self : S3Uploader) (put : PutCall → Except PyExn Unit) (data : List Record),
        data ≠ [] → (S3Uploader.upload self put now data).1.map PutCall.key
          = [S3Uploader.s3_key now] := by
  refine ⟨key_eq_specStorageKey now hy1 hy2 hm hd hh hmin hs, by decide, ?_⟩
  intro self put data hne
  obtain ⟨call, hc, hk, _⟩ := upload_put_call self put now data hne
  rw [hc]
  simp [hk]

/-- C4 witness: the claimed concrete instant. -/
theorem C4_partitioned_storage_key_witness :
    (1000 ≤ (2024 : Nat) ∧ (2024 : Nat) ≤ 9999 ∧ (3 : Nat) ≤ 99 ∧ (7 : Nat) ≤ 99
      ∧ (9 : Nat) ≤ 99 ∧ (5 : Nat) ≤ 99 ∧ (33 : Nat) ≤ 99)
    ∧ S3Uploader.s3_key ⟨2024, 3, 7, 9, 5, 33, 0⟩
        = specStorageKey ⟨2024, 3, 7, 9, 5, 33, 0⟩ :=
  ⟨⟨by decide, by decide, by decide, by decide, by decide, by decide, by decide⟩,
    (C4_partitioned_storage_key ⟨2024, 3, 7, 9, 5, 33, 0⟩ (by decide) (by decide)
      (by decide) (by decide) (by decide) (by decide) (by decide)).1⟩

/-- C5: an ordinary exception in any stage makes the engine record the
failure via the monitor, keep the loop running and take the pacing sleep;
the loop stops only on `KeyboardInterrupt` (the operator stop); and a
stream of cycles free of interrupts is consumed in full, whatever each
cycle's failures. -/
theorem C5_loop_survives_cycle_failures :
    (∀ (env : CycleEnv) (m : String), (cycleBody env).2 = some (.exn m) →
        runCycle env = ⟨.cycleStart :: ((cycleBody env).1.events ++ [.cycleFailure m]),
          (cycleBody env).1.puts, (cycleBody env).1.uploadRes, .cont, true⟩)
    ∧ (∀ env : CycleEnv, (runCycle env).ctl = .stop →
        (cycleBody env).2 = some .kbInterrupt)
    ∧ (∀ envs : List CycleEnv, (∀ env ∈ envs, (cycleBody env).2 ≠ some .kbInterrupt) →
        (runLoop envs).length = envs.length) :=
  ⟨runCycle_exn, fun env h => (runCycle_stop_iff env).mp h, runLoop_length⟩

/-- C5 witness: a cycle whose fetch raises an ordinary exception. -/
theorem C5_loop_survives_cycle_failures_witness :
    ((cycleBody envFetchBoom).2 = some (.exn "boom"))
    ∧ runCycle envFetchBoom
        = ⟨.cycleStart :: ((cycleBody envFetchBoom).1.events ++ [.cycleFailure "boom"]),
            (cycleBody envFetchBoom).1.puts, (cycleBody envFetchBoom).1.uploadRes,
            .cont, true⟩ :=
  ⟨by decide, C5_loop_survives_cycle_failures.1 envFetchBoom "boom" (by decide)⟩

/-- C6 counterexample: in a cycle with one clean reading whose alert sink
raises, the engine neither reaches the write stage (no put call, no upload
result) nor records a success — the failure is recorded as the cycle's
outcome, refuting the claim that an alert failure leaves the cycle's write
and success reporting intact. -/
theorem C6_alert_failure_counterexample :
    runCycle envAlertDown
      = ⟨[.cycleStart, .cycleFailure "alert down"], [], none, .cont, true⟩ := by decide

/-- C6 (amended): when `send_alerts` raises an ordinary exception, the
exception propagates to the cycle-level handler: the write stage is
skipped, the cycle is recorded as a failure, and the loop still proceeds
to the next cycle after the pacing sleep. -/
theorem C6_alert_failure_fails_cycle_amended (env : CycleEnv) (raw clean : List Record)
    (anomalies : List AnomalyVerdict) (m : String)
    (h1 : env.fetch = .ok raw)
    (h2 : env.detect (DataValidator.validate env.parse raw).1 = .ok (clean, anomalies))
    (h3 : anomalies ≠ [])
    (h4 : env.alert anomalies = .error (.exn m)) :
    (runCycle env).puts = [] ∧ (runCycle env).uploadRes = none
    ∧ (runCycle env).ctl = .cont ∧ (runCycle env).slept = true
    ∧ (runCycle env).events.getLast? = some (.cycleFailure m) := by
  have h3e : anomalies.isEmpty = false := by
    cases anomalies with
    | nil => exact absurd rfl h3
    | cons a l => rfl
  have hb : cycleBody env
      = (⟨if (DataValidator.validate env.parse raw).2.isEmpty then []
           else [.validationFailures (DataValidator.validate env.parse raw).2.length],
          [], none⟩, some (.exn m)) := by
    simp only [cycleBody, h1]
    rw [h2]
    simp only [h3e, Bool.false_eq_true, if_false]
    rw [h4]
  have hr := runCycle_exn env m (by rw [hb])
  rw [hr, hb]
  refine ⟨rfl, rfl, rfl, rfl, ?_⟩
  exact getLast_cons_concat _ _ _

/-- C6 witness: the concrete failing-alert cycle. -/
theorem C6_alert_failure_fails_cycle_amended_witness :
    (envAlertDown.fetch = .ok [recBoolTemp]
     ∧ envAlertDown.detect (DataValidator.validate envAlertDown.parse [recBoolTemp]).1
         = .ok ([recBoolTemp], [recBoolTemp])
     ∧ ([recBoolTemp] : List AnomalyVerdict) ≠ []
     ∧ envAlertDown.alert [recBoolTemp] = .error (.exn "alert down"))
    ∧ ((runCycle envAlertDown).puts = [] ∧ (runCycle envAlertDown).uploadRes = none
       ∧ (runCycle envAlertDown).ctl = .cont ∧ (runCycle envAlertDown).slept = true
       ∧ (runCycle envAlertDown).events.getLast? = some (.cycleFailure "alert down")) :=
  ⟨⟨rfl, rfl, by decide, rfl⟩,
    C6_alert_failure_fails_cycle_amended envAlertDown [recBoolTemp] [recBoolTemp]
      [recBoolTemp] "alert down" rfl rfl (by decide) rfl⟩

/-- C7 counterexample: a record whose `timestamp` is present and equal to
the empty string — which the ISO parser rejects — receives no
timestamp-format error and is classified fully valid, because the parse
check is gated on Python truthiness rather than presence. -/
theorem C7_timestamp_parse_counterexample :
    lookupVal recEmptyTs "timestamp" = some (.vStr "")
    ∧ isoParseOk (pyReplace1 'Z' "+00:00" (pyStr (.vStr ""))) = false
    ∧ DataValidator.validate isoParseOk [recEmptyTs] = ([recEmptyTs], []) :=
  ⟨by decide, by decide, by decide⟩

/-- C7 (amended): for a record whose `timestamp` is present and *truthy*
(in particular any non-empty string), failure of the ISO-8601 parse — on
the `str` rendering with `"Z"` replaced by `"+00:00"` — appends the
timestamp-format error and makes the record invalid. -/
theorem C7_truthy_timestamp_parse_amended (parse : String → Bool) (r : Record)
    (v : Value) (hts : lookupVal r "timestamp" = some v) (htr : pyTruthy v = true)
    (hp : parse (pyReplace1 'Z' "+00:00" (pyStr v)) = false) :
    ("Invalid timestamp format: '" ++ pyStr v ++ "'")
        ∈ (DataValidator.validate_record parse r).2
    ∧ (DataValidator.validate_record parse r).1 = false := by
  have hmem0 : ("Invalid timestamp format: '" ++ pyStr v ++ "'")
      ∈ DataValidator.timestampErrors parse r := by
    simp [DataValidator.timestampErrors, hts, htr, hp]
  have hmem : ("Invalid timestamp format: '" ++ pyStr v ++ "'")
      ∈ (DataValidator.validate_record parse r).2 := by
    rw [DataValidator.validate_record_snd]
    exact List.mem_append_left _ (List.mem_append_right _ hmem0)
  exact ⟨hmem, DataValidator.validate_record_fst_false parse r _ hmem⟩

/-- C7 witness: a present, truthy, unparseable timestamp. -/
theorem C7_truthy_timestamp_parse_amended_witness :
    (lookupVal recBadTs "timestamp" = some (.vStr "not-a-date")
     ∧ pyTruthy (.vStr "not-a-date") = true
     ∧ isoParseOk (pyReplace1 'Z' "+00:00" (pyStr (.vStr "not-a-date"))) = false)
    ∧ ("Invalid timestamp format: 'not-a-date'"
          ∈ (DataValidator.validate_record isoParseOk recBadTs).2
       ∧ (DataValidator.validate_record isoParseOk recBadTs).1 = false) :=
  ⟨⟨by decide, by decide, by decide⟩,
    C7_truthy_timestamp_parse_amended isoParseOk recBadTs (.vStr "not-a-date")
      (by decide) (by decide) (by decide)⟩

/-- C8 counterexample: the side-channel metadata of a written batch holds
the record count, the generation timestamp and a fixed pipeline-name tag —
no entry carries the schema version: the schema-version constant `"1.0"`
(`pipeline_version`) travels only inside the object body. -/
theorem C8_metadata_counterexample :
    (S3Uploader.upload S3Uploader.default (fun _ => .ok ()) ⟨2024, 3, 7, 9, 5, 33, 0⟩
        [recBoolTemp]).1.map PutCall.metadata
      = [[("record-count", "1"), ("upload-timestamp", "2024-03-07T09:05:33"),
          ("pipeline", "iot-realtime-data-pipeline")]]
    ∧ (S3Uploader.upload S3Uploader.default (fun _ => .ok ()) ⟨2024, 3, 7, 9, 5, 33, 0⟩
        [recBoolTemp]).1.map (fun c => c.body.pipeline_version) = ["1.0"]
    ∧ (([("record-count", "1"), ("upload-timestamp", "2024-03-07T09:05:33"),
          ("pipeline", "iot-realtime-data-pipeline")] : List (String × String)).all
        fun kv => kv.2 != "1.0") = true :=
  ⟨by decide, by decide, by decide⟩

/-- C8 (amended): every non-empty upload makes exactly one `put_object`
call whose side-channel metadata (a put parameter distinct from the body)
carries the record count, the generation timestamp and the fixed
pipeline-name tag; the schema-version tag (`pipeline_version = "1.0"`) is
carried in the object body instead. -/
theorem C8_metadata_amended (self : S3Uploader) (put : PutCall → Except PyExn Unit)
    (now : PyDateTime) (data : List Record) (h : data ≠ []) :
    (S3Uploader.upload self put now data).1.map PutCall.metadata
      = [[("record-count", toString data.length), ("upload-timestamp", isoformat now),
          ("pipeline", "iot-realtime-data-pipeline")]]
    ∧ (S3Uploader.upload self put now data).1.map (fun c => c.body.record_count)
        = [data.length]
    ∧ (S3Uploader.upload self put now data).1.map (fun c => c.body.upload_timestamp)
        = [isoformat now]
    ∧ (S3Uploader.upload self put now data).1.map (fun c => c.body.pipeline_version)
        = ["1.0"] := by
  obtain ⟨call, hc, hk, hmeta, hbody, hb, hct⟩ := upload_put_call self put now data h
  rw [hc]
  simp [hmeta, hbody]

/-- C8 witness: a concrete one-record batch. -/
theorem C8_metadata_amended_witness :
    (([recBoolTemp] : List Record) ≠ [])
    ∧ ((S3Uploader.upload S3Uploader.default (fun _ => .ok ()) ⟨2024, 3, 7, 9, 5, 33, 0⟩
          [recBoolTemp]).1.map PutCall.metadata
        = [[("record-count", toString ([recBoolTemp] : List Record).length),
            ("upload-timestamp", isoformat ⟨2024, 3, 7, 9, 5, 33, 0⟩),
            ("pipeline", "iot-realtime-data-pipeline")]]
       ∧ (S3Uploader.upload S3Uploader.default (fun _ => .ok ()) ⟨2024, 3, 7, 9, 5, 33, 0⟩
          [recBoolTemp]).1.map (fun c => c.body.record_count)
            = [([recBoolTemp] : List Record).length]
       ∧ (S3Uploader.upload S3Uploader.default (fun _ => .ok ()) ⟨2024, 3, 7, 9, 5, 33, 0⟩
          [recBoolTemp]).1.map (fun c => c.body.upload_timestamp)
            = [isoformat ⟨2024, 3, 7, 9, 5, 33, 0⟩]
       ∧ (S3Uploader.upload S3Uploader.default (fun _ => .ok ()) ⟨2024, 3, 7, 9, 5, 33, 0⟩
          [recBoolTemp]).1.map (fun c => c.body.pipeline_version) = ["1.0"]) :=
  ⟨by decide, C8_metadata_amended S3Uploader.default (fun _ => .ok ())
    ⟨2024, 3, 7, 9, 5, 33, 0⟩ [recBoolTemp] (by decide)⟩

/-- C9: `validate` returns a complete pair — valid and invalid counts sum
to the input count — and every invalid entry carries a non-empty error
list.  (Totality over arbitrary record values and parser behaviour is
inherent in the type of the embedding: the one exception of the timestamp
parse is modelled as the parser's `False` result, mirroring the
`try/except ValueError` of the source.) -/
theorem C9_validate_total (parse : String → Bool) (records : List Record) :
    (DataValidator.validate parse records).1.length
        + (DataValidator.validate parse records).2.length = records.length
    ∧ ∀ e ∈ (DataValidator.validate parse records).2, e.2 ≠ [] := by
  refine ⟨?_, DataValidator.validate_invalid_errors parse records⟩
  have := (DataValidator.validate_perm parse records).length_eq
  simpa using this

/-- C9 witness: the invalid entry produced by a record lacking
`sensor_id`. -/
theorem C9_validate_total_witness :
    ((recNoSensor, ["Missing required field: 'sensor_id'"])
        ∈ (DataValidator.validate isoParseOk [recNoSensor]).2)
    ∧ ((recNoSensor, ["Missing required field: 'sensor_id'"]) : Record × List String).2
        ≠ [] :=
  ⟨by decide, (C9_validate_total isoParseOk [recNoSensor]).2 _ (by decide)⟩

/-- C10: booleans satisfy the numeric type check — `isinstance(b, (int,
float))` holds since `bool` subclasses `int` — every numeric measurement
field is declared numeric in `FIELD_TYPES`, a field holding a boolean
contributes no type error, and a record with boolean `temperature` (and
otherwise well-formed fields) is classified valid. -/
theorem C10_bool_accepted_numeric :
    (∀ b : Bool, pyIsinstance (.vBool b) .num = true)
    ∧ (∀ f : String, f ∈ ["temperature", "humidity", "pressure", "vibration", "voltage"] →
        (f, PyType.num) ∈ FIELD_TYPES)
    ∧ (∀ (r : Record) (f : String) (b : Bool), lookupVal r f = some (.vBool b) →
        DataValidator.typeCheckOne r (f, .num) = none)
    ∧ (∀ parse : String → Bool, parse "2024-01-01T00:00:00+00:00" = true →
        DataValidator.validate parse [recBoolTemp] = ([recBoolTemp], [])) := by
  refine ⟨fun b => by cases b <;> rfl, by decide, ?_, ?_⟩
  · intro r f b hl
    simp [DataValidator.typeCheckOne, hl, pyIsinstance]
  · intro parse hp
    have h1 : DataValidator.requiredErrors recBoolTemp = [] := by decide
    have h2 : DataValidator.typeErrors recBoolTemp = [] := by decide
    have h4 : DataValidator.sensorIdErrors recBoolTemp = [] := by decide
    have h3 : DataValidator.timestampErrors parse recBoolTemp = [] := by
      refine timestampErrors_of_parse_true parse recBoolTemp
        (.vStr "2024-01-01T00:00:00Z") (by decide) ?_
      have hrepl : pyReplace1 'Z' "+00:00" (pyStr (.vStr "2024-01-01T00:00:00Z"))
          = "2024-01-01T00:00:00+00:00" := by decide
      rw [hrepl]
      exact hp
    have herr : (DataValidator.validate_record parse recBoolTemp).2 = [] := by
      rw [DataValidator.validate_record_snd, h1, h2, h3, h4]
      rfl
    have hfst : (DataValidator.validate_record parse recBoolTemp).1 = true := by
      have hq : (DataValidator.validate_record parse recBoolTemp).1
          = (DataValidator.validate_record parse recBoolTemp).2.isEmpty := rfl
      rw [hq, herr]
      rfl
    simp [DataValidator.validate, hfst]

/-- C10 witness: a parser accepting the rewritten instant. -/
theorem C10_bool_accepted_numeric_witness :
    ((fun _ : String => true) "2024-01-01T00:00:00+00:00" = true)
    ∧ DataValidator.validate (fun _ => true) [recBoolTemp] = ([recBoolTemp], []) :=
  ⟨rfl, C10_bool_accepted_numeric.2.2.2 (fun _ => true) rfl⟩
